import Mathlib

/-!
Verification of the mimic terminal-testing library (github.com/jimschubert/mimic).

The development shallowly embeds the library's core: the matcher primitives of
internal/matchers.go, the view adapter of view.go, the Contains/Expect
operations and constructor defaults of mimic.go, and the WaitForIdle poller.
External collaborators (the vt10x grid renderer and the go-expect read loop)
are modelled from the spec where noted, since their code lives outside this
repository; the pseudo-terminal delivers raw bytes as transmitted, without
column wrapping — only the rendered grid wraps.

The repository ships two generations of some files (an error-returning and a
boolean-returning Contains API); where they diverge both are embedded, with
doc comments naming the file each definition was translated from.
-/

set_option maxHeartbeats 1000000
set_option maxRecDepth 100000

/-- Whitespace predicate used by strings.TrimSpace (ASCII subset of unicode.IsSpace). -/
def isSpaceChar (c : Char) : Bool :=
  c = ' ' || c = '\n' || c = '\t' || c = '\r' || c = '\x0b' || c = '\x0c'

/-- strings.TrimSpace on the character list: drop leading and trailing whitespace. -/
def trimSpaceL (l : List Char) : List Char :=
  ((l.dropWhile isSpaceChar).reverse.dropWhile isSpaceChar).reverse

/-- strings.TrimSpace. -/
def trimSpace (s : String) : String :=
  String.mk (trimSpaceL s.data)

/-- Leading-segment test on character lists (go strings.HasPrefix, used to build Contains). -/
def leadsWith : List Char → List Char → Bool
  | [], _ => true
  | _ :: _, [] => false
  | a :: as, b :: bs => a == b && leadsWith as bs

/-- Substring occurrence test on character lists (go strings.Contains). -/
def occursIn (needle : List Char) : List Char → Bool
  | [] => needle.isEmpty
  | c :: rest => leadsWith needle (c :: rest) || occursIn needle rest

/-- Final byte of a CSI escape sequence (0x40-0x7e). -/
def isCsiFinal (c : Char) : Bool :=
  0x40 ≤ c.toNat && c.toNat ≤ 0x7e

/-- Scanner state for the ANSI stripper. -/
inductive AnsiMode where
  | plain
  | sawEsc
  | inCsi

/-- Modelled from the spec: the external jimschubert/stripansi collaborator, as a
state machine removing ESC-introduced control sequences (ESC `[` params final-byte);
on escape-free text it is the identity. -/
def stripAnsiAux : AnsiMode → List Char → List Char
  | _, [] => []
  | .plain, c :: rest =>
      if c = '\x1b' then stripAnsiAux .sawEsc rest else c :: stripAnsiAux .plain rest
  | .sawEsc, c :: rest =>
      if c = '[' then stripAnsiAux .inCsi rest else stripAnsiAux .plain rest
  | .inCsi, c :: rest =>
      if isCsiFinal c then stripAnsiAux .plain rest else stripAnsiAux .inCsi rest

/-- stripansi on character lists. -/
def stripAnsiL (l : List Char) : List Char :=
  stripAnsiAux .plain l

/-- stripansi.String. -/
def stripAnsi (s : String) : String :=
  String.mk (stripAnsiL s.data)

/-- Replace the element at an index, leaving the list unchanged when out of range. -/
def setAt {α : Type} : List α → Nat → α → List α
  | [], _, _ => []
  | _ :: xs, 0, a => a :: xs
  | x :: xs, n + 1, a => x :: setAt xs n a

/-- strings.Repeat. -/
def repeatStr (s : String) (n : Nat) : String :=
  String.mk (List.flatten (List.replicate n s.data))

/-- Modelled from the spec (section 4.4): the fixed-geometry character grid of the
external vt10x renderer collaborator, keyed by rows and columns; cells start as
spaces and the cursor at the origin.  Scrollback is not modelled (no scenario
below writes past the last row). -/
structure Grid where
  rows : Nat
  cols : Nat
  cells : List (List Char)
  curRow : Nat
  curCol : Nat
deriving DecidableEq

/-- A fresh grid of blanks with the cursor at the origin. -/
def gridInit (rows cols : Nat) : Grid :=
  { rows := rows, cols := cols
    cells := List.replicate rows (List.replicate cols ' ')
    curRow := 0, curCol := 0 }

/-- Modelled from the spec (section 4.4): applying one character to the grid.
A newline moves to the start of the next row; a printable character is placed at
the cursor, which then advances, wrapping to the next row every `cols` characters. -/
def gridPut (g : Grid) (c : Char) : Grid :=
  if c = '\n' then
    { g with curRow := g.curRow + 1, curCol := 0 }
  else
    let cells2 := setAt g.cells g.curRow (setAt (g.cells.getD g.curRow []) g.curCol c)
    if g.curCol + 1 ≥ g.cols then
      { g with cells := cells2, curRow := g.curRow + 1, curCol := 0 }
    else
      { g with cells := cells2, curCol := g.curCol + 1 }

/-- terminal.Write: apply every character of the payload to the grid. -/
def gridWrite (g : Grid) (s : String) : Grid :=
  s.data.foldl gridPut g

/-- terminal.String of vt10x: the full grid contents, each row followed by a newline. -/
def renderGrid (g : Grid) : String :=
  String.mk (List.flatten (g.cells.map (fun row => row ++ ['\n'])))

/-- The engine-instance state from mimic.go: the renderer grid (fed by the send
observer installed in NewMimic) and the raw pty bytes not yet consumed by the
stream engine. -/
structure Mimic where
  grid : Grid
  stream : List Char
deriving DecidableEq

/-- A fresh engine instance for a given geometry. -/
def mkMimic (rows cols : Nat) : Mimic :=
  { grid := gridInit rows cols, stream := [] }

/-- Mimic.WriteString (mimic.go): console.Send writes the payload; the send observer
installed in NewMimic mirrors the raw bytes into the vt10x grid, and the pty echo
delivers the bytes to the raw stream as transmitted — the tty performs no column
wrapping, only the rendered grid wraps (src/suite/suite_test.go and the doc.go
example assert that over-width runs still match contiguously on the raw stream). -/
def Mimic.WriteString (m : Mimic) (s : String) : Mimic :=
  { grid := gridWrite m.grid s, stream := m.stream ++ s.data }

/-- The state effect of the flush step of ContainsString/ContainsPattern
(mimic.go, spec section 4.3(a)): the console.Expect call with the flush matcher set
drains everything currently buffered from the raw stream (the grid is untouched:
it was already written by the send observer).  The outcome of that expect call is
analysed separately by `runExpect` below. -/
def Mimic.flushToView (m : Mimic) : Mimic :=
  { m with stream := [] }

/-- Viewer (view.go and src/unnamed/part_005): a reference to the engine instance
plus the two optional transformation flags. -/
structure Viewer where
  Mimic : Option Mimic
  StripAnsi : Bool
  Trim : Bool

/-- Viewer.String as committed in src/view.go: `var altered string` starts empty and
is assigned from the rendered text only inside the Trim branch; the StripAnsi branch
re-assigns `altered` from itself. -/
def Viewer.StringV1 (v : Viewer) : String :=
  match v.Mimic with
  | none => ""
  | some m =>
    let original := renderGrid m.grid
    let altered0 := ""
    let altered1 := if v.Trim then trimSpace original else altered0
    let altered2 := if v.StripAnsi then stripAnsi altered1 else altered1
    altered2

/-- Viewer.String as committed in src/unnamed/part_005: `result` starts from the
renderer's full dump, then the optional trim and ANSI-strip are applied on top. -/
def Viewer.StringV2 (v : Viewer) : String :=
  match v.Mimic with
  | none => ""
  | some m =>
    let result0 := renderGrid m.grid
    let result1 := if v.Trim then trimSpace result0 else result0
    let result2 := if v.StripAnsi then stripAnsi result1 else result1
    result2

/-- The snapshot both Contains operations read:
`Viewer{Mimic: m, StripAnsi: true, Trim: true}.String()`. -/
def Mimic.viewContents (m : Mimic) : String :=
  Viewer.StringV2 { Mimic := some m, StripAnsi := true, Trim := true }

/-- The values a go-expect matcher is consulted with: the accumulated read buffer,
or the error that ended a read (an fs.PathError, io.EOF, or some other error). -/
inductive MatchInput where
  | buffer (bytes : String)
  | pathError (op : String) (errMsg : String)
  | eofError
  | otherError (msg : String)
deriving DecidableEq

/-- FlushMatcher.Match (src/unnamed/part_003, the current internal/matchers.go):
matches only an fs.PathError whose Op is "read" and whose message is "i/o timeout";
buffers and every other value never match. -/
def FlushMatcher.Match : MatchInput → Bool
  | .pathError op msg => op == "read" && msg == "i/o timeout"
  | _ => false

/-- FlushMatcher.Match of the legacy internal/matchers.go (src/internal/matchers.go,
first revision): returns true for every value. -/
def FlushMatcherLegacy.Match : MatchInput → Bool :=
  fun _ => true

/-- EOFMatcher.Match (src/unnamed/part_003): matches exactly io.EOF. -/
def EOFMatcher.Match : MatchInput → Bool
  | .eofError => true
  | _ => false

/-- AnyMatcher.Match (src/unnamed/part_003): true when any collected matcher matches. -/
def AnyMatcher.Match (matchers : List (MatchInput → Bool)) (v : MatchInput) : Bool :=
  matchers.any (fun m => m v)

/-- PlainStringMatcher.Match (internal/matchers.go): only buffers can match, by
substring search over the ANSI-stripped buffer contents. -/
def PlainStringMatcher.Match (s : String) : MatchInput → Bool
  | .buffer b => occursIn s.data (stripAnsiL b.data)
  | _ => false

/-- An observable read event of the raw stream during one expect call. -/
inductive StreamEvent where
  | data (chunk : String)
  | eof
  | readTimeout
deriving DecidableEq

/-- Outcome of an expect call: a successful match returning the accumulated buffer,
or an error surfaced to the caller. -/
inductive ExpectResult where
  | matched (buf : String)
  | errored
deriving DecidableEq

/-- Modelled from the spec (sections 4.1 and 4.3(a)) and the go-expect dependency:
the expect loop appends each read chunk to its buffer and consults the matcher;
a read failure (end-of-stream or the deadline's read timeout) ends the call, as a
success when the matcher matches the error value and as a surfaced error otherwise.
An exhausted trace without a terminal event is treated as a surfaced error (the
deadline guarantees real traces end in eof or readTimeout). -/
def runExpect (m : MatchInput → Bool) : List StreamEvent → List Char → ExpectResult
  | [], _ => .errored
  | .data chunk :: rest, buf =>
    let buf2 := buf ++ chunk.data
    if m (.buffer (String.mk buf2)) then .matched (String.mk buf2)
    else runExpect m rest buf2
  | .eof :: _, buf =>
    if m .eofError then .matched (String.mk buf) else .errored
  | .readTimeout :: _, buf =>
    if m (.pathError "read" "i/o timeout") then .matched (String.mk buf) else .errored

/-- The byte-by-byte scan of an expect call over buffered stream content: grow the
buffer one character at a time and stop at the first point the predicate accepts,
returning the consumed buffer and the unconsumed remainder. -/
def scanBuf (p : List Char → Bool) (buf : List Char) : List Char → Option (List Char × List Char)
  | [] => none
  | c :: rest =>
    let b2 := buf ++ [c]
    if p b2 then some (b2, rest) else scanBuf p b2 rest

/-- Mimic.ExpectString (mimic.go) for one literal: a blocking stream match through
internal.String's PlainStringMatcher.  `some consumed` is a successful match that
consumed through the end of the first occurrence; `none` is the timeout error, and
the bytes the call had read into its per-call buffer are discarded with it —
go-expect never replays them to a later call, as the committed Example output at
src/internal/matchers.go lines 66-91 demonstrates. -/
def Mimic.ExpectString (m : Mimic) (s : String) : Option String × Mimic :=
  match scanBuf (fun b => occursIn s.data (stripAnsiL b)) [] m.stream with
  | some r => (some (String.mk r.1), { m with stream := r.2 })
  | none => (none, { m with stream := [] })

/-- Mimic.ContainsString (mimic.go, boolean view-engine revision): flush, take the
stripped and trimmed snapshot, count the literals whose PlainStringMatcher fails
against it, and succeed exactly when none failed. -/
def Mimic.ContainsString (m : Mimic) (strs : List String) : Bool × Mimic :=
  let m2 := m.flushToView
  let contents := m2.viewContents
  let failed := (strs.filter (fun s => !(PlainStringMatcher.Match s (.buffer contents)))).length
  (failed == 0, m2)

/-- PatternError (mimic.go, error-returning revision). -/
structure PatternError where
  Contents : String
  FailedPatterns : List String
deriving DecidableEq

/-- PatternError.Error: fmt.Sprintf("contents failed to match %d pattern%s: %v",
count, suffix, strings.Join(failed, ", ")), where suffix is "s" whenever count > 0. -/
def PatternError.Error (p : PatternError) : String :=
  "contents failed to match " ++ toString p.FailedPatterns.length
    ++ " pattern" ++ (if p.FailedPatterns.length > 0 then "s" else "")
    ++ ": " ++ String.intercalate ", " p.FailedPatterns

/-- Outcome of go code that may panic instead of returning. -/
inductive GoResult (α : Type) where
  | ok (value : α)
  | panicked (msg : String)
deriving DecidableEq

/-- The regexp.MustCompile loop opening ContainsPattern/ExpectPattern: compile each
pattern in order with the external regexp library (modelled as a compiler returning
a matching function or a parse-error message); the first failure panics with
regexp.MustCompile's message, before any matching happens.  A compiled regex is
paired with its source text, which regexp's String method returns. -/
def mustCompileAll (compile : String → Except String (String → Bool)) :
    List String → GoResult (List (String × (String → Bool)))
  | [] => .ok []
  | p :: rest =>
    match compile p with
    | .error e => .panicked ("regexp: Compile(`" ++ p ++ "`): " ++ e)
    | .ok re =>
      match mustCompileAll compile rest with
      | .ok rs => .ok ((p, re) :: rs)
      | .panicked msg => .panicked msg

/-- Mimic.ContainsPattern (mimic.go, error-returning revision): MustCompile every
pattern, flush, take the stripped and trimmed snapshot, evaluate every regex once
against it, and return nil or a PatternError carrying the failing patterns in the
order supplied.  (The flush expect's error branch is dead: see the flush theorem.) -/
def Mimic.ContainsPattern (compile : String → Except String (String → Bool))
    (m : Mimic) (patterns : List String) : GoResult (Option PatternError × Mimic) :=
  match mustCompileAll compile patterns with
  | .panicked msg => .panicked msg
  | .ok regexes =>
    let m2 := m.flushToView
    let contents := m2.viewContents
    let failed := (regexes.filter (fun pr => !(pr.2 contents))).map (fun pr => pr.1)
    if failed.isEmpty then .ok (none, m2)
    else .ok (some { Contents := contents, FailedPatterns := failed }, m2)

/-- Mimic.ExpectPattern (mimic.go): MustCompile every pattern, then a blocking stream
match through internal.Regexp's RegexpMatcher (regexes evaluated on the ANSI-stripped
buffer after every byte); `ok (none, _)` is the timeout error return, whose per-call
buffer — and with it the bytes it read — is discarded. -/
def Mimic.ExpectPattern (compile : String → Except String (String → Bool))
    (m : Mimic) (patterns : List String) : GoResult (Option String × Mimic) :=
  match mustCompileAll compile patterns with
  | .panicked msg => .panicked msg
  | .ok regexes =>
    match scanBuf (fun b => regexes.any (fun pr => pr.2 (String.mk (stripAnsiL b)))) [] m.stream with
    | some r => .ok (some (String.mk r.1), { m with stream := r.2 })
    | none => .ok (none, { m with stream := [] })

/-- Mimic.ContainsPattern (mimic.go, boolean revision), after compilation: flush,
snapshot, evaluate every regex once, succeed when patterns were supplied and none
failed. -/
def Mimic.ContainsPatternBool (regexes : List (String × (String → Bool))) (m : Mimic) :
    Bool × Mimic :=
  let m2 := m.flushToView
  let contents := m2.viewContents
  let failed := (regexes.filter (fun pr => !(pr.2 contents))).map (fun pr => pr.1)
  (!regexes.isEmpty && failed.isEmpty, m2)

/-- The renderer cursor position sampled by WaitForIdle (vt10x.Cursor's coordinates;
its zero value is the origin). -/
structure Coord where
  x : Nat
  y : Nat
deriving DecidableEq

/-- vt10x.Cursor's zero value, the `emptyCoord` of WaitForIdle. -/
def emptyCoord : Coord :=
  { x := 0, y := 0 }

/-- The polling loop of Mimic.WaitForIdle (mimic.go), one tick per 1ms sleep
iteration, reading the renderer cursor through `cursorAt`.  Each iteration first
checks the deadline (the fuel), zeroes the recorded coordinate and restarts the
quiet clock when the sampled cursor changed, signals success when the recorded
coordinate is non-zero and has been stable for the quiet duration, and otherwise
records the sample and continues.  `none` is the deadline-exceeded error. -/
def waitForIdleAux (cursorAt : Nat → Coord) (quiet : Nat) :
    Nat → Nat → Coord → Nat → Option Nat
  | 0, _, _, _ => none
  | fuel + 1, t, coord, started =>
    let p := if coord = cursorAt t then (coord, started) else (emptyCoord, t)
    if p.1 ≠ emptyCoord ∧ quiet ≤ t - p.2 then some t
    else waitForIdleAux cursorAt quiet fuel (t + 1) (cursorAt t) p.2

/-- Mimic.WaitForIdle: run the polling loop from the call's start with the recorded
coordinate zeroed, bounded by the idle-timeout measured in ticks. -/
def WaitForIdle (cursorAt : Nat → Coord) (quiet timeoutTicks : Nat) : Option Nat :=
  waitForIdleAux cursorAt quiet timeoutTicks 0 emptyCoord 0

/-- The construction options of NewMimic (mimic.go); the writer and reader fields are
io values and carry no behavior verified here. -/
structure mimicOpt where
  maxIdleTimeoutMs : Nat
  idleDurationMs : Nat
  rows : Nat
  columns : Nat
  pipeFromOS : Bool
deriving DecidableEq

/-- The defaults NewMimic fills in before applying options:
132 columns, 24 rows, maxIdleTimeout 5 * time.Second, idleDuration 250ms. -/
def defaultMimicOpt : mimicOpt :=
  { maxIdleTimeoutMs := 5000, idleDurationMs := 250, rows := 24, columns := 132
    pipeFromOS := false }

/-- WithIdleTimeout (mimic.go). -/
def WithIdleTimeout (timeoutMs : Nat) : mimicOpt → mimicOpt :=
  fun o => { o with maxIdleTimeoutMs := timeoutMs }

/-- WithIdleDuration (mimic.go). -/
def WithIdleDuration (durationMs : Nat) : mimicOpt → mimicOpt :=
  fun o => { o with idleDurationMs := durationMs }

/-- WithSize (mimic.go). -/
def WithSize (rows columns : Nat) : mimicOpt → mimicOpt :=
  fun o => { o with rows := rows, columns := columns }

/-- WithPipeFromOS (mimic.go). -/
def WithPipeFromOS : mimicOpt → mimicOpt :=
  fun o => { o with pipeFromOS := true }

/-- The option-application loop of NewMimic: fold the supplied options over the
defaults. -/
def NewMimicOpts (opts : List (mimicOpt → mimicOpt)) : mimicOpt :=
  opts.foldl (fun o f => f o) defaultMimicOpt

/-- A concrete regex semantics used to instantiate theorems: the pattern read as a
literal substring matcher. -/
def subMatch : String → String → Bool :=
  fun p s => occursIn p.data s.data

/-- A concrete compiler behavior exhibiting regexp's parse failure on "(" (Go's
regexp returns `error parsing regexp: missing closing ): ...` there). -/
def badCompile : String → Except String (String → Bool) :=
  fun p =>
    if p = "(" then Except.error "error parsing regexp: missing closing ): `(`"
    else Except.ok (fun _ => true)

/-- A 2-row, 3-column terminal showing "abc". -/
def gridAbc : Grid :=
  gridWrite (gridInit 2 3) "abc"

/-- C1: The flush-sentinel matcher never matches any payload buffer; it returns true
exactly when the evaluated event is the read-timeout error (an fs.PathError with
operation "read" and message "i/o timeout") signalling the stream has been drained. -/
theorem c1_flush_sentinel_matches_only_read_timeout :
    (∀ b : String, FlushMatcher.Match (MatchInput.buffer b) = false)
    ∧ (∀ v : MatchInput,
        FlushMatcher.Match v = true ↔ v = MatchInput.pathError "read" "i/o timeout") := by
  constructor
  · intro b
    rfl
  · intro v
    cases v <;> simp [FlushMatcher.Match]

/-- Instantiation of the flush-sentinel characterization: the read-timeout event
matches and a payload buffer does not. -/
theorem c1_flush_sentinel_witness :
    FlushMatcher.Match (MatchInput.pathError "read" "i/o timeout") = true
    ∧ FlushMatcher.Match (MatchInput.buffer "payload") = false := by
  constructor
  · exact (c1_flush_sentinel_matches_only_read_timeout.2 _).mpr rfl
  · exact c1_flush_sentinel_matches_only_read_timeout.1 "payload"

/-- C2: for every engine state and fixed list of literals or compiled patterns, the
view-engine contains checks return the same result when called twice with no
intervening writes; they never consume rendered content — the grid is untouched, so
it remains visible to every subsequent view check. -/
theorem c2_contains_is_nonconsuming_and_idempotent (m : Mimic) (strs : List String)
    (regexes : List (String × (String → Bool))) :
    (m.ContainsString strs).1 = ((m.ContainsString strs).2.ContainsString strs).1
    ∧ ((m.ContainsString strs).2.ContainsString strs).2 = (m.ContainsString strs).2
    ∧ (m.ContainsString strs).2.grid = m.grid
    ∧ (Mimic.ContainsPatternBool regexes m).1
        = (Mimic.ContainsPatternBool regexes (Mimic.ContainsPatternBool regexes m).2).1
    ∧ (Mimic.ContainsPatternBool regexes (Mimic.ContainsPatternBool regexes m).2).2
        = (Mimic.ContainsPatternBool regexes m).2
    ∧ (Mimic.ContainsPatternBool regexes m).2.grid = m.grid :=
  ⟨rfl, rfl, rfl, rfl, rfl, rfl⟩

/-- C8 (the code evaluated at the failing input): with both transformation flags
disabled, part_005's Viewer.String returns the renderer's raw text unchanged for
every grid, while view.go's committed Viewer.String returns the empty string on a
2-by-3 terminal showing "abc" whose raw rendered text is "abc\n   \n". -/
theorem c8_viewer_raw_text_disabled_flags :
    (∀ g : Grid,
        Viewer.StringV2 { Mimic := some { grid := g, stream := [] },
                          StripAnsi := false, Trim := false } = renderGrid g)
    ∧ Viewer.StringV1 { Mimic := some { grid := gridAbc, stream := [] },
                        StripAnsi := false, Trim := false } = ""
    ∧ renderGrid gridAbc = "abc\n   \n"
    ∧ Viewer.StringV1 { Mimic := some { grid := gridAbc, stream := [] },
                        StripAnsi := false, Trim := false } ≠ renderGrid gridAbc := by
  refine ⟨fun g => rfl, rfl, by decide, by decide⟩

/-- C9 counterexample: an engine instance constructed with no options defaults to a
5000ms idle-timeout and a 250ms idle-quiet-duration, not the claimed 250ms and
100ms (and the option record carries no flush-timeout field at all). -/
theorem c9_default_options_counterexample :
    NewMimicOpts []
      = { maxIdleTimeoutMs := 5000, idleDurationMs := 250, rows := 24, columns := 132
          pipeFromOS := false }
    ∧ (NewMimicOpts []).maxIdleTimeoutMs ≠ 250
    ∧ (NewMimicOpts []).idleDurationMs ≠ 100 := by
  refine ⟨rfl, by decide, by decide⟩

/-- C9 (amended): an engine instance constructed with no options uses geometry
24 rows by 132 columns, an idle-timeout of 5 seconds and an idle-quiet-duration of
250ms; supplied options override these defaults in order. -/
theorem c9_default_options :
    (NewMimicOpts []).rows = 24
    ∧ (NewMimicOpts []).columns = 132
    ∧ (NewMimicOpts []).maxIdleTimeoutMs = 5000
    ∧ (NewMimicOpts []).idleDurationMs = 250
    ∧ NewMimicOpts [WithSize 10 20, WithIdleTimeout 7, WithIdleDuration 3]
      = { maxIdleTimeoutMs := 7, idleDurationMs := 3, rows := 10, columns := 20
          pipeFromOS := false } := by
  refine ⟨rfl, rfl, rfl, rfl, rfl⟩

/-- C10: calling String on a Viewer whose Mimic reference is nil returns the empty
string in both committed revisions of the adapter, for every flag combination. -/
theorem c10_viewer_nil_returns_empty (stripFlag trimFlag : Bool) :
    Viewer.StringV1 { Mimic := none, StripAnsi := stripFlag, Trim := trimFlag } = ""
    ∧ Viewer.StringV2 { Mimic := none, StripAnsi := stripFlag, Trim := trimFlag } = "" :=
  ⟨rfl, rfl⟩

/-- Instantiation of the nil-Viewer totality at concrete flags. -/
theorem c10_viewer_nil_witness :
    Viewer.StringV1 { Mimic := none, StripAnsi := true, Trim := false } = ""
    ∧ Viewer.StringV2 { Mimic := none, StripAnsi := true, Trim := false } = "" :=
  c10_viewer_nil_returns_empty true false

/-- A total compiler (every pattern compiles) yields each pattern paired with its
matching function, in order. -/
theorem mustCompileAll_total (f : String → String → Bool) :
    ∀ ps : List String,
      mustCompileAll (fun p => Except.ok (f p)) ps = GoResult.ok (ps.map (fun p => (p, f p)))
  | [] => rfl
  | p :: rest => by
    simp [mustCompileAll, mustCompileAll_total f rest]

/-- Filtering the paired regex list by match failure and projecting the source texts
is the same as filtering the pattern list itself. -/
theorem filter_pairs_fst (f : String → String → Bool) (c : String) :
    ∀ ps : List String,
      ((ps.map (fun p => (p, f p))).filter (fun pr => !(pr.2 c))).map (fun pr => pr.1)
        = ps.filter (fun p => !(f p c))
  | [] => rfl
  | p :: rest => by
    by_cases hf : f p c <;> simp [hf, filter_pairs_fst f c rest]

/-- C4: whenever at least one supplied pattern fails to match the flushed, stripped
and trimmed snapshot (all patterns compiling), ContainsPattern returns a single
PatternError whose failing-pattern list is exactly the non-matching patterns in the
order supplied, and whose textual representation joins precisely those patterns. -/
theorem c4_pattern_error_names_all_failures (f : String → String → Bool) (m : Mimic)
    (patterns : List String)
    (h : patterns.filter (fun p => !(f p m.flushToView.viewContents)) ≠ []) :
    Mimic.ContainsPattern (fun p => Except.ok (f p)) m patterns
      = GoResult.ok
          (some { Contents := m.flushToView.viewContents
                  FailedPatterns := patterns.filter (fun p => !(f p m.flushToView.viewContents)) },
           m.flushToView)
    ∧ PatternError.Error
        { Contents := m.flushToView.viewContents
          FailedPatterns := patterns.filter (fun p => !(f p m.flushToView.viewContents)) }
      = "contents failed to match "
        ++ toString (patterns.filter (fun p => !(f p m.flushToView.viewContents))).length
        ++ " pattern" ++ "s" ++ ": "
        ++ String.intercalate ", " (patterns.filter (fun p => !(f p m.flushToView.viewContents))) := by
  have hempty : (patterns.filter (fun p => !(f p m.flushToView.viewContents))).isEmpty = false := by
    cases hfe : patterns.filter (fun p => !(f p m.flushToView.viewContents)) with
    | nil => exact absurd hfe h
    | cons a as => rfl
  have hpos : 0 < (patterns.filter (fun p => !(f p m.flushToView.viewContents))).length :=
    List.length_pos.mpr h
  constructor
  · simp [Mimic.ContainsPattern, mustCompileAll_total, filter_pairs_fst, hempty]
  · simp [PatternError.Error, hpos]

/-- Instantiation of the aggregate pattern error: on a blank 1-by-3 terminal the
snapshot is empty, the pattern "x" fails, and the error text names it. -/
theorem c4_pattern_error_witness :
    (["x"].filter (fun p => !(subMatch p (mkMimic 1 3).flushToView.viewContents)) ≠ [])
    ∧ (Mimic.ContainsPattern (fun p => Except.ok (subMatch p)) (mkMimic 1 3) ["x"]
        = GoResult.ok
            (some { Contents := (mkMimic 1 3).flushToView.viewContents
                    FailedPatterns :=
                      ["x"].filter (fun p => !(subMatch p (mkMimic 1 3).flushToView.viewContents)) },
             (mkMimic 1 3).flushToView)
      ∧ PatternError.Error
          { Contents := (mkMimic 1 3).flushToView.viewContents
            FailedPatterns :=
              ["x"].filter (fun p => !(subMatch p (mkMimic 1 3).flushToView.viewContents)) }
        = "contents failed to match "
          ++ toString (["x"].filter
              (fun p => !(subMatch p (mkMimic 1 3).flushToView.viewContents))).length
          ++ " pattern" ++ "s" ++ ": "
          ++ String.intercalate ", "
              (["x"].filter (fun p => !(subMatch p (mkMimic 1 3).flushToView.viewContents)))) :=
  ⟨by decide, c4_pattern_error_names_all_failures subMatch (mkMimic 1 3) ["x"] (by decide)⟩

/-- A pattern that fails to compile makes the MustCompile loop panic. -/
theorem mustCompileAll_panicked (compile : String → Except String (String → Bool)) :
    ∀ (ps : List String) (p e : String), p ∈ ps → compile p = Except.error e →
      ∃ msg, mustCompileAll compile ps = GoResult.panicked msg := by
  intro ps
  induction ps with
  | nil => intro p e hm; cases hm
  | cons q rest ih =>
    intro p e hm hc
    cases hcq : compile q with
    | error e2 =>
      exact ⟨"regexp: Compile(`" ++ q ++ "`): " ++ e2, by simp [mustCompileAll, hcq]⟩
    | ok r =>
      rcases List.mem_cons.mp hm with h2 | h2
      · rw [h2] at hc
        rw [hc] at hcq
        cases hcq
      · obtain ⟨msg, hmsg⟩ := ih p e h2 hc
        exact ⟨msg, by simp [mustCompileAll, hcq, hmsg]⟩

/-- C5 (amended): when any supplied pattern fails to compile, ContainsPattern and
ExpectPattern panic through regexp.MustCompile instead of returning an explicit
error value. -/
theorem c5_malformed_pattern_panics (compile : String → Except String (String → Bool))
    (m : Mimic) (patterns : List String) (p e : String)
    (hm : p ∈ patterns) (hc : compile p = Except.error e) :
    (∃ msg, Mimic.ContainsPattern compile m patterns = GoResult.panicked msg)
    ∧ (∃ msg, Mimic.ExpectPattern compile m patterns = GoResult.panicked msg) := by
  obtain ⟨msg, hmsg⟩ := mustCompileAll_panicked compile patterns p e hm hc
  exact ⟨⟨msg, by simp [Mimic.ContainsPattern, hmsg]⟩,
         ⟨msg, by simp [Mimic.ExpectPattern, hmsg]⟩⟩

/-- C5 counterexample: with the malformed pattern "(" the call panics with
regexp.MustCompile's message — it does not return an error value to the caller. -/
theorem c5_malformed_pattern_counterexample :
    Mimic.ContainsPattern badCompile (mkMimic 2 3) ["("]
      = GoResult.panicked
          "regexp: Compile(`(`): error parsing regexp: missing closing ): `(`" := by
  rfl

/-- Instantiation of the construction-failure panic on a concrete pattern list. -/
theorem c5_malformed_pattern_witness :
    (∃ msg, Mimic.ContainsPattern badCompile (mkMimic 1 2) ["(", "ok"]
        = GoResult.panicked msg)
    ∧ (∃ msg, Mimic.ExpectPattern badCompile (mkMimic 1 2) ["(", "ok"]
        = GoResult.panicked msg) :=
  c5_malformed_pattern_panics badCompile (mkMimic 1 2) ["(", "ok"] "("
    "error parsing regexp: missing closing ): `(`" (by decide) rfl

/-- C6: the flush step of a contains call completes on every stream outcome — with
the matcher used at the embedded call sites every trace ends in a match, and with
the spec's end-of-stream plus flush-sentinel matcher set every trace containing a
clean end-of-stream or a read timeout ends in a match; neither outcome surfaces an
error to the contains caller. -/
theorem c6_flush_step_never_errors (events : List StreamEvent) (buf : List Char) :
    (events ≠ [] →
      ∃ s, runExpect FlushMatcherLegacy.Match events buf = ExpectResult.matched s)
    ∧ ((StreamEvent.eof ∈ events ∨ StreamEvent.readTimeout ∈ events) →
      ∃ s, runExpect (AnyMatcher.Match [EOFMatcher.Match, FlushMatcher.Match]) events buf
        = ExpectResult.matched s) := by
  constructor
  · intro h
    cases events with
    | nil => exact absurd rfl h
    | cons e rest =>
      cases e with
      | data chunk =>
        exact ⟨String.mk (buf ++ chunk.data), by simp [runExpect, FlushMatcherLegacy.Match]⟩
      | eof => exact ⟨String.mk buf, by simp [runExpect, FlushMatcherLegacy.Match]⟩
      | readTimeout => exact ⟨String.mk buf, by simp [runExpect, FlushMatcherLegacy.Match]⟩
  · induction events generalizing buf with
    | nil =>
      intro h
      rcases h with h | h <;> cases h
    | cons e rest ih =>
      intro h
      cases e with
      | data chunk =>
        have h2 : StreamEvent.eof ∈ rest ∨ StreamEvent.readTimeout ∈ rest := by
          rcases h with h | h <;> rcases List.mem_cons.mp h with h3 | h3
          · cases h3
          · exact Or.inl h3
          · cases h3
          · exact Or.inr h3
        have hbuf : AnyMatcher.Match [EOFMatcher.Match, FlushMatcher.Match]
            (MatchInput.buffer (String.mk (buf ++ chunk.data))) = false := rfl
        obtain ⟨s, hs⟩ := ih (buf ++ chunk.data) h2
        exact ⟨s, by simp [runExpect, hbuf, hs]⟩
      | eof =>
        exact ⟨String.mk buf, by simp [runExpect, AnyMatcher.Match, EOFMatcher.Match]⟩
      | readTimeout =>
        exact ⟨String.mk buf,
          by simp [runExpect, AnyMatcher.Match, EOFMatcher.Match, FlushMatcher.Match]⟩

/-- Instantiation of the flush-completion guarantee on a concrete trace ending in a
read timeout. -/
theorem c6_flush_step_witness :
    (∃ s, runExpect FlushMatcherLegacy.Match [StreamEvent.data "x", StreamEvent.readTimeout] []
        = ExpectResult.matched s)
    ∧ (∃ s, runExpect (AnyMatcher.Match [EOFMatcher.Match, FlushMatcher.Match])
        [StreamEvent.data "x", StreamEvent.readTimeout] [] = ExpectResult.matched s) :=
  ⟨(c6_flush_step_never_errors [StreamEvent.data "x", StreamEvent.readTimeout] []).1 (by decide),
   (c6_flush_step_never_errors [StreamEvent.data "x", StreamEvent.readTimeout] []).2
     (Or.inr (by decide))⟩

/-- A settled polling loop settles strictly before its fuel (the deadline) runs out. -/
theorem waitForIdleAux_bound (cursorAt : Nat → Coord) (quiet : Nat) :
    ∀ (fuel t : Nat) (coord : Coord) (started r : Nat),
      waitForIdleAux cursorAt quiet fuel t coord started = some r → t ≤ r ∧ r < t + fuel := by
  intro fuel
  induction fuel with
  | zero => intro t coord started r h; cases h
  | succ f ih =>
    intro t coord started r h
    rw [waitForIdleAux] at h
    by_cases heq : coord = cursorAt t
    · rw [if_pos heq] at h
      have h2 : (if coord ≠ emptyCoord ∧ quiet ≤ t - started then some t
          else waitForIdleAux cursorAt quiet f (t + 1) (cursorAt t) started) = some r := h
      by_cases hs : coord ≠ emptyCoord ∧ quiet ≤ t - started
      · rw [if_pos hs] at h2
        injection h2 with htr
        omega
      · rw [if_neg hs] at h2
        have := ih (t + 1) (cursorAt t) started r h2
        omega
    · rw [if_neg heq] at h
      have h2 : waitForIdleAux cursorAt quiet f (t + 1) (cursorAt t) t = some r := by
        have h3 : (if emptyCoord ≠ emptyCoord ∧ quiet ≤ t - t then some t
            else waitForIdleAux cursorAt quiet f (t + 1) (cursorAt t) t) = some r := h
        rwa [if_neg (fun hc => hc.1 rfl)] at h3
      have := ih (t + 1) (cursorAt t) t r h2
      omega

/-- Soundness invariant of the polling loop: from a state where `started` marks the
last observed cursor change and the samples have been constant since, a settled
result means the cursor was constant and non-origin over a window of at least the
quiet duration ending at the settle tick. -/
theorem waitForIdleAux_sound (cursorAt : Nat → Coord) (quiet : Nat) :
    ∀ (fuel t : Nat) (coord : Coord) (started r : Nat),
      started ≤ t →
      (∀ u, started ≤ u → u < t → cursorAt u = cursorAt started) →
      coord = (if t = 0 then emptyCoord else cursorAt (t - 1)) →
      waitForIdleAux cursorAt quiet fuel t coord started = some r →
      cursorAt r ≠ emptyCoord
      ∧ ∃ s, s + quiet ≤ r ∧ ∀ u, s ≤ u → u ≤ r → cursorAt u = cursorAt r := by
  intro fuel
  induction fuel with
  | zero => intro t coord started r _ _ _ h; cases h
  | succ f ih =>
    intro t coord started r hst hconst hcoord h
    rw [waitForIdleAux] at h
    by_cases heq : coord = cursorAt t
    · rw [if_pos heq] at h
      have h2 : (if coord ≠ emptyCoord ∧ quiet ≤ t - started then some t
          else waitForIdleAux cursorAt quiet f (t + 1) (cursorAt t) started) = some r := h
      have hlast : cursorAt t = cursorAt started := by
        by_cases ht0 : t = 0
        · have hs0 : started = 0 := by omega
          rw [ht0, hs0]
        · have hprev : coord = cursorAt (t - 1) := by rw [hcoord, if_neg ht0]
          rcases Nat.lt_or_ge started t with hlt | hge
          · calc cursorAt t = coord := heq.symm
              _ = cursorAt (t - 1) := hprev
              _ = cursorAt started := hconst (t - 1) (by omega) (by omega)
          · have hseq : started = t := by omega
            rw [hseq]
      by_cases hsettle : coord ≠ emptyCoord ∧ quiet ≤ t - started
      · rw [if_pos hsettle] at h2
        obtain ⟨hne, hq⟩ := hsettle
        injection h2 with htr
        subst htr
        constructor
        · rw [← heq]
          exact hne
        · refine ⟨started, by omega, ?_⟩
          intro u hsu hut
          rcases Nat.lt_or_ge u t with hlt | hge
          · rw [hconst u hsu hlt, hlast]
          · have hut2 : u = t := by omega
            rw [hut2]
      · rw [if_neg hsettle] at h2
        refine ih (t + 1) (cursorAt t) started r (by omega) ?_ (by simp) h2
        intro u hsu hu
        rcases Nat.lt_or_ge u t with hlt | hge
        · exact hconst u hsu hlt
        · have hut : u = t := by omega
          rw [hut, hlast]
    · rw [if_neg heq] at h
      have h2 : waitForIdleAux cursorAt quiet f (t + 1) (cursorAt t) t = some r := by
        have h3 : (if emptyCoord ≠ emptyCoord ∧ quiet ≤ t - t then some t
            else waitForIdleAux cursorAt quiet f (t + 1) (cursorAt t) t) = some r := h
        rwa [if_neg (fun hc => hc.1 rfl)] at h3
      refine ih (t + 1) (cursorAt t) t r (by omega) ?_ (by simp) h2
      intro u hsu hu
      have hut : u = t := by omega
      rw [hut]

/-- A cursor pinned at the origin never settles. -/
theorem waitForIdleAux_origin (cursorAt : Nat → Coord) (quiet : Nat)
    (h : ∀ u, cursorAt u = emptyCoord) :
    ∀ (fuel t started : Nat),
      waitForIdleAux cursorAt quiet fuel t emptyCoord started = none := by
  intro fuel
  induction fuel with
  | zero => intro t started; rfl
  | succ f ih =>
    intro t started
    rw [waitForIdleAux, if_pos (h t).symm]
    have hfalse : ¬(((emptyCoord, started) : Coord × Nat).1 ≠ emptyCoord
        ∧ quiet ≤ t - ((emptyCoord, started) : Coord × Nat).2) := by
      intro hcontra
      exact hcontra.1 rfl
    rw [if_neg hfalse, h t]
    exact ih (t + 1) started

/-- C7: WaitForIdle succeeds only when it settles strictly before the idle-timeout
at a tick where the renderer cursor is away from the origin and has been unchanged
for at least the idle-quiet-duration; a cursor that stays at the origin never
settles, so the call ends in the deadline's timeout error (`none`). -/
theorem c7_wait_for_idle_settles_correctly (cursorAt : Nat → Coord)
    (quiet timeoutTicks r : Nat) :
    (WaitForIdle cursorAt quiet timeoutTicks = some r →
      r < timeoutTicks
      ∧ cursorAt r ≠ emptyCoord
      ∧ ∃ s, s + quiet ≤ r ∧ ∀ u, s ≤ u → u ≤ r → cursorAt u = cursorAt r)
    ∧ ((∀ u, cursorAt u = emptyCoord) →
      WaitForIdle cursorAt quiet timeoutTicks = none) := by
  constructor
  · intro h
    have hb := waitForIdleAux_bound cursorAt quiet timeoutTicks 0 emptyCoord 0 r h
    have hs := waitForIdleAux_sound cursorAt quiet timeoutTicks 0 emptyCoord 0 r
      (Nat.le_refl 0) (by intro u _ hu; omega) (by simp) h
    exact ⟨by omega, hs.1, hs.2⟩
  · intro h
    exact waitForIdleAux_origin cursorAt quiet h timeoutTicks 0 0

/-- Instantiation of the idle-detection guarantees: a cursor constant at (1,0)
settles at tick 2 with quiet duration 2 and timeout 5, and an origin-pinned cursor
times out. -/
theorem c7_wait_for_idle_witness :
    (2 < 5
      ∧ (fun _ : Nat => Coord.mk 1 0) 2 ≠ emptyCoord
      ∧ ∃ s, s + 2 ≤ 2 ∧ ∀ u, s ≤ u → u ≤ 2 →
          (fun _ : Nat => Coord.mk 1 0) u = (fun _ : Nat => Coord.mk 1 0) 2)
    ∧ WaitForIdle (fun _ => emptyCoord) 1 3 = none :=
  ⟨(c7_wait_for_idle_settles_correctly (fun _ => Coord.mk 1 0) 2 5 2).1 (by decide),
   (c7_wait_for_idle_settles_correctly (fun _ => emptyCoord) 1 3 0).2 (fun _ => rfl)⟩

/-- C3 counterexample: with geometry 24 rows by 30 columns, after writing "Hi"
sixteen times, the stream expect of "Hi" repeated 16 times succeeds — the raw pty
stream delivers the 32 characters contiguously (the tty does not wrap) — refuting
the claim that this expect fails. -/
theorem c3_literal_wrap_counterexample :
    (((mkMimic 24 30).WriteString (repeatStr "Hi" 16)).ExpectString (repeatStr "Hi" 16)).1
      = some (repeatStr "Hi" 16)
    ∧ (((mkMimic 24 30).WriteString (repeatStr "Hi" 16)).ExpectString (repeatStr "Hi" 16)).1
      ≠ none := by
  decide

/-- C3 (amended): with geometry 24 rows by 30 columns, after writing "Hi" sixteen
times: a stream expect of "Hi" repeated 16 times succeeds, consuming the whole run,
after which an expect of "Hi" repeated 15 times fails on the drained stream;
performed directly after the write instead, an expect of "Hi" repeated 15 times
succeeds on the first 30 characters and a following expect of "Hi" succeeds on the
remainder; a view contains of "Hi" repeated 16 times fails because the rendered
view wraps at column 30; and the trimmed rendered view equals "Hi" repeated 15
times, then a newline, then "Hi". -/
theorem c3_literal_wrap_scenario_amended :
    (((mkMimic 24 30).WriteString (repeatStr "Hi" 16)).ExpectString (repeatStr "Hi" 16)).1
      = some (repeatStr "Hi" 16)
    ∧ ((((mkMimic 24 30).WriteString (repeatStr "Hi" 16)).ExpectString
          (repeatStr "Hi" 16)).2.ExpectString (repeatStr "Hi" 15)).1
      = none
    ∧ (((mkMimic 24 30).WriteString (repeatStr "Hi" 16)).ExpectString (repeatStr "Hi" 15)).1
      = some (repeatStr "Hi" 15)
    ∧ ((((mkMimic 24 30).WriteString (repeatStr "Hi" 16)).ExpectString
          (repeatStr "Hi" 15)).2.ExpectString "Hi").1
      = some "Hi"
    ∧ (((((mkMimic 24 30).WriteString (repeatStr "Hi" 16)).ExpectString
          (repeatStr "Hi" 15)).2.ExpectString "Hi").2.ContainsString [repeatStr "Hi" 16]).1
      = false
    ∧ ((((mkMimic 24 30).WriteString (repeatStr "Hi" 16)).ExpectString
          (repeatStr "Hi" 15)).2.ExpectString "Hi").2.flushToView.viewContents
      = repeatStr "Hi" 15 ++ "\n" ++ "Hi" := by
  decide
